import Mathlib

/-!
Verification development for `create-agent.mjs` (clawd-control).

The source is a single provisioning workflow `createAgent` that scaffolds a
workspace on disk, registers the agent with an external gateway CLI,
optionally verifies and binds a Telegram bot token, performs one
read-modify-write of the shared gateway configuration JSON, updates a
dashboard registry, and signals the gateway to hot-reload.

The embedding below models the filesystem, the gateway configuration file and
the dashboard registry as an explicit `World` record, and every external,
fallible call (process invocations, network, file errors) as an `Env` oracle
supplying that call's outcome.  An uncaught JavaScript exception is modelled
as `Except.error`; a returned result object as `Except.ok`.  Machine-level
caveats: JS strings are UTF-16 (`charAt`, `substring`) while Lean strings are
sequences of scalar values, and `String.toLower`/`Char.toUpper` model the JS
Unicode case mappings; these differ only on exotic code points that no claim
depends on.  A JS object used as a map is modelled as an association list
with unique keys, and JS falsy checks on optional string parameters are
modelled with `Option String` (`none` for absent/falsy).
-/

namespace ClawdControl

/-- Characters kept by the id regex class `[a-z0-9-]` of
`name.toLowerCase().replace(/[^a-z0-9-]/g, '')` (source line 46). -/
def isIdChar (c : Char) : Bool :=
  ('a' ≤ c && c ≤ 'z') || ('0' ≤ c && c ≤ '9') || c == '-'

/-- AgentId derivation, source line 46:
`const id = name.toLowerCase().replace(/[^a-z0-9-]/g, '')`
(lower-casing is applied per character, as `String.toLower` does). -/
def idOf (name : String) : String :=
  String.mk ((name.data.map Char.toLower).filter isIdChar)

/-- Display-name derivation, source line 47:
`const displayName = name.charAt(0).toUpperCase() + name.slice(1)`
(for the empty string both `charAt(0)` and `slice(1)` are empty). -/
def displayNameOf (name : String) : String :=
  match name.data with
  | [] => ""
  | c :: cs => String.mk (Char.toUpper c :: cs)

/-- Spec-side restatement of the AgentId rule, for refinement against `idOf`:
"derived from name by lowercasing and stripping all characters outside
`[a-z0-9-]`". -/
def specAgentId (name : String) : String :=
  String.mk ((name.data.map Char.toLower).filter fun c =>
    ('a' ≤ c && c ≤ 'z') || ('0' ≤ c && c ≤ '9') || c == '-')

/-- Spec-side restatement of the DisplayName rule, for refinement against
`displayNameOf`: "first character upper-cased, rest unchanged". -/
def specDisplayName (name : String) : String :=
  String.mk ((name.data.take 1).map Char.toUpper ++ name.data.drop 1)

/-- Path join, modelling `join` from `path`. -/
def joinP (a b : String) : String := a ++ "/" ++ b

/-! ## Filesystem model

Files are an association list from path to content. -/

abbrev FS := List (String × String)

/-- Insert or replace the entry for key `k`, keeping its position when
present (models assignment to a JS object property / writing a file). -/
def setEntry {β : Type} (k : String) (v : β) : List (String × β) → List (String × β)
  | [] => [(k, v)]
  | e :: es => if e.1 == k then (k, v) :: es else e :: setEntry k v es

/-- Models `existsSync` for files. -/
def existsF (fs : FS) (p : String) : Bool := fs.any (fun e => e.1 == p)

/-- Models reading a file's content. -/
def readF (fs : FS) (p : String) : Option String :=
  (fs.find? (fun e => e.1 == p)).map (fun e => e.2)

/-- Models `writeFileSync`. -/
def writeF (fs : FS) (p c : String) : FS := setEntry p c fs

/-- Source lines 36-42: write `content` to `path` only when the file does not
already exist; returns whether a write happened. -/
def writeIfMissing (fs : FS) (path content : String) : FS × Bool :=
  if existsF fs path then (fs, false) else (writeF fs path content, true)

/-! ## Gateway configuration model

Mirrors the JSON shape consumed by lines 233-297 and 301-317 of the source:
`agents.list[]` (each with `id` and `subagents.allowAgents[]`),
`channels.telegram.{enabled, accounts{}}`, `bindings[]`,
`tools.agentToAgent.enabled` and `gateway.{port, auth.token}`.  An `Option`
collapses a chain of absent JSON levels that the source only ever probes with
`?.` and recreates wholesale. -/

structure AgentEntry where
  id : String
  /-- Models `agents.list[i].subagents.allowAgents` (either level may be absent). -/
  subagents : Option (List String)
deriving DecidableEq

structure TelegramAccount where
  enabled : Bool
  dmPolicy : String
  botToken : String
  groupPolicy : String
  streamMode : String
deriving DecidableEq

structure BindingMatch where
  channel : String
  accountId : String
deriving DecidableEq

structure Binding where
  agentId : String
  /-- Models the `match` object of a binding (`match` is a Lean keyword). -/
  bmatch : Option BindingMatch
deriving DecidableEq

structure TelegramChannel where
  enabled : Bool
  accounts : Option (List (String × TelegramAccount))
deriving DecidableEq

structure GatewayConfig where
  agentsList : Option (List AgentEntry)
  telegram : Option TelegramChannel
  bindings : Option (List Binding)
  toolsAgentToAgentEnabled : Option Bool
  gatewayPort : Option Nat
  gatewayAuthToken : Option String
deriving DecidableEq

/-- Replace the first element satisfying `p` by its image under `f`
(models mutating the object returned by `Array.prototype.find`). -/
def updateFirst {α : Type} (p : α → Bool) (f : α → α) : List α → List α
  | [] => []
  | x :: xs => if p x then f x :: xs else x :: updateFirst p f xs

/-- The fixed channel-account record written at source lines 260-266. -/
def mkTelegramAccount (tok : String) : TelegramAccount :=
  { enabled := true, dmPolicy := "pairing", botToken := tok,
    groupPolicy := "allowlist", streamMode := "partial" }

/-- The binding record pushed at source lines 274-277. -/
def newBinding (id : String) : Binding :=
  { agentId := id, bmatch := some { channel := "telegram", accountId := id } }

/-- The dedup predicate of source lines 270-272:
`b.agentId === id && b.match?.channel === 'telegram' && b.match?.accountId === id`. -/
def bindingMatches (id : String) (b : Binding) : Bool :=
  b.agentId == id &&
    (match b.bmatch with
     | some m => m.channel == "telegram" && m.accountId == id
     | none => false)

/-- Predicate of `config.agents?.list?.find(a => a.id === 'main')`. -/
def isMainEntry (a : AgentEntry) : Bool := a.id == "main"

/-- Predicate of `config.agents?.list?.find(a => a.id === id)`. -/
def hasEntryId (id : String) (a : AgentEntry) : Bool := a.id == id

/-- Mutation applied to the `main` agent entry (lines 240-246): ensure the
allow-list exists and push `id` when absent. -/
def mainUpdater (id : String) (a : AgentEntry) : AgentEntry :=
  let cur := a.subagents.getD []
  { a with subagents := some (if cur.contains id then cur else cur ++ [id]) }

/-- Mutation applied to the new agent's entry (lines 249-253): overwrite the
allow-list with `["main"]`. -/
def selfUpdater (a : AgentEntry) : AgentEntry :=
  { a with subagents := some ["main"] }

/-- The in-memory mutation of the gateway configuration, source lines 238-288
(excluding the sessions-directory `mkdirSync`, which touches the filesystem,
not the configuration object):
main gains `id` in its spawn allow-list if absent; the new agent's allow-list
is set to `["main"]`; when the Telegram token was verified, the channel
account keyed by `id` is written and a binding is appended unless one already
matches; finally `tools.agentToAgent.enabled` is set to `true`. -/
def applyConfigMutation (id tok : String) (telegramVerified : Bool)
    (c : GatewayConfig) : GatewayConfig :=
  let als := c.agentsList.map (updateFirst isMainEntry (mainUpdater id))
  let als := als.map (updateFirst (hasEntryId id) selfUpdater)
  let c1 := { c with agentsList := als }
  let c2 :=
    if telegramVerified then
      let tg := c1.telegram.getD { enabled := true, accounts := none }
      let accts := tg.accounts.getD []
      let tg2 := { tg with accounts := some (setEntry id (mkTelegramAccount tok) accts) }
      let bnds := c1.bindings.getD []
      let bnds2 :=
        if bnds.any (bindingMatches id) then bnds
        else bnds ++ [newBinding id]
      { c1 with telegram := some tg2, bindings := some bnds2 }
    else c1
  { c2 with toolsAgentToAgentEnabled := some true }

/-- The `main` agent's spawn allow-list, as read through
`config.agents?.list?.find(a => a.id === 'main')` followed by
`subagents.allowAgents` defaulting. -/
def mainAllowAgents (c : GatewayConfig) : Option (List String) :=
  ((c.agentsList.getD []).find? isMainEntry).map (fun a => a.subagents.getD [])

/-- The channel-accounts map `channels.telegram.accounts`, defaulted as the
source does. -/
def telegramAccounts (c : GatewayConfig) : List (String × TelegramAccount) :=
  (c.telegram.getD { enabled := true, accounts := none }).accounts.getD []

/-- The bindings list, defaulted as the source does. -/
def bindingsOf (c : GatewayConfig) : List Binding :=
  c.bindings.getD []

/-- First-match lookup in an association list (models JS property access). -/
def lookupKey {β : Type} (k : String) (l : List (String × β)) : Option β :=
  (l.find? (fun e => e.1 == k)).map (fun e => e.2)

/-! ## Workflow model

`World` holds the state the workflow can observe or mutate; `Env` supplies
the outcome of every external, fallible call.  The parsed gateway list
(existence guard) and the set-identity outcome are separate arguments of
`createAgent` because nothing downstream depends on them. -/

/-- A dashboard registry entry, source lines 307-316. -/
structure DashEntry where
  id : String
  name : String
  emoji : String
  host : String
  port : Nat
  token : String
  workspace : String
  machine : String
deriving DecidableEq

/-- Observable external state: the filesystem (files and directories), the
gateway configuration file (`none` when missing or unparsable) and the
dashboard registry file's agent list (`none` when missing, unparsable, or
lacking the `agents` array). -/
structure World where
  files : FS
  dirs : List String
  gatewayConfigFile : Option GatewayConfig
  dashboard : Option (List DashEntry)
deriving DecidableEq

/-- Outcome of the Telegram `getMe` verification call (source lines 218-230):
the provider answers `ok: false`; answers `ok: true` with a username; or the
call throws / returns unparsable output. -/
inductive TgOutcome where
  | invalid
  | valid (username : String)
  | unreachable (msg : String)
deriving DecidableEq

/-- Outcome of the hot-reload step (source lines 326-348): SIGUSR1 delivered;
signal path failed but the fallback system event succeeded; both failed. -/
inductive ReloadOutcome where
  | signaled
  | fallbackEvent
  | failed
deriving DecidableEq

/-- Oracle for the outcomes of the workflow's fallible external calls. -/
structure Env where
  /-- `some e`: creating the workspace directory tree throws `e` (lines 66-73). -/
  mkdirWorkspaceError : Option String
  /-- Paths at which `writeFileSync` would throw (lines 116-181 are uncaught). -/
  failingWrites : List String
  /-- Output of `hostname` (lines 151 and 315). -/
  hostname : String
  /-- `new Date().toISOString().split('T')[0]` (line 49). -/
  today : String
  /-- `some e`: `clawdbot agents add` throws `e` (lines 195-201). -/
  registerError : Option String
  /-- Telegram verification outcome (lines 218-230). -/
  tgOutcome : TgOutcome
  /-- Error message when the gateway config file read throws (line 236). -/
  configReadError : String
  /-- `some e`: `mkdirSync` of the agent sessions directory throws `e` (line 283). -/
  sessionsDirError : Option String
  /-- `some e`: writing the gateway config file throws `e` (line 290). -/
  configWriteError : Option String
  /-- Error message when the dashboard registry read throws (line 302). -/
  dashboardReadError : String
  /-- `some e`: writing the dashboard registry throws `e` (line 317). -/
  dashboardWriteError : Option String
  /-- Hot-reload outcome (lines 326-348). -/
  reload : ReloadOutcome
deriving DecidableEq

/-- Resolved base paths (the source resolves them once at module load from
the environment and `agents.json`, lines 28-34). -/
structure Settings where
  baseDir : String
  defaultWorkspace : String
  home : String
deriving DecidableEq

/-- The request object destructured at source line 44.  `none` models a
falsy (absent/empty) optional field. -/
structure AgentRequest where
  name : String
  emoji : String
  soul : Option String
  model : String
  telegramToken : Option String
deriving DecidableEq

/-- The value returned by `createAgent`: the failure object shape
`{ok:false, error, steps}` or the success shape of lines 352-364. -/
inductive CreateResult where
  | failure (error : String) (steps : List String)
  | success (id name emoji workspace model : String) (hasTelegram : Bool)
      (message : String) (steps : List String)
deriving DecidableEq

/-- The `ok` field of the returned object. -/
def CreateResult.ok : CreateResult → Bool
  | .failure _ _ => false
  | .success _ _ _ _ _ _ _ _ => true

/-- The `steps` field of the returned object. -/
def CreateResult.stepLog : CreateResult → List String
  | .failure _ s => s
  | .success _ _ _ _ _ _ _ s => s

/-- The `error` field of the returned object, when present. -/
def CreateResult.errorMsg : CreateResult → Option String
  | .failure e _ => some e
  | .success _ _ _ _ _ _ _ _ => none

/-- The `hasTelegram` field of a success object. -/
def CreateResult.hasTelegram : CreateResult → Option Bool
  | .failure _ _ => none
  | .success _ _ _ _ _ hT _ _ => some hT

/-- The `message` field of a success object. -/
def CreateResult.message : CreateResult → Option String
  | .failure _ _ => none
  | .success _ _ _ _ _ _ m _ => some m

/-- The `id` field of a success object. -/
def CreateResult.agentId : CreateResult → Option String
  | .failure _ _ => none
  | .success i _ _ _ _ _ _ _ => some i

/-- Whether a run ended in an uncaught exception. -/
def isThrown (x : Except String (CreateResult × World)) : Bool :=
  match x with
  | .error _ => true
  | .ok _ => false

/-- `ok` field of a run that returned (false for a thrown run). -/
def runOk (x : Except String (CreateResult × World)) : Bool :=
  match x with
  | .error _ => false
  | .ok r => r.1.ok

/-- Step log of a run that returned (empty for a thrown run). -/
def runSteps (x : Except String (CreateResult × World)) : List String :=
  match x with
  | .error _ => []
  | .ok r => r.1.stepLog

/-- A step line is a warning if it starts with the warning sign. -/
def isWarning (s : String) : Bool := s.data.take 1 == ['⚠']

/-! ### Template documents (verbatim boilerplate of lines 78-181) -/

/-- SOUL.md content (lines 78-114). -/
def soulContentOf (displayName : String) (soul : Option String) : String :=
  match soul with
  | some s => "# SOUL.md - Who You Are

*You are " ++ displayName ++ ". " ++ s ++ "*

## Core Truths

**Be direct.** No filler. No corporate speak. Just help.
**Have opinions.** You're allowed to disagree, recommend, and push back.
**Be resourceful.** Figure it out before asking.
**Earn trust through competence.** Be careful with external actions, bold with internal ones.

## Vibe

" ++ s ++ "

## Continuity

Each session, you wake up fresh. Your files *are* your memory. Read them. Update them."
  | none => "# SOUL.md - Who You Are

*You are " ++ displayName ++ ". Define your personality here.*

## Core Truths

**Be direct.** No filler. No corporate speak. Just help.
**Have opinions.** You're allowed to disagree, recommend, and push back.
**Be resourceful.** Figure it out before asking.
**Earn trust through competence.** Be careful with external actions, bold with internal ones.

## Vibe

*(Define your personality, tone, and style here)*

## Continuity

Each session, you wake up fresh. Your files *are* your memory. Read them. Update them."

/-- IDENTITY.md content (lines 118-124). -/
def identityContentOf (displayName : String) (soul : Option String)
    (emoji : String) : String :=
  "# IDENTITY.md - Who Am I?

- **Name:** " ++ displayName ++ "
- **Creature:** AI in your Clawdbot fleet
- **Vibe:** " ++ soul.getD "(customize me)" ++ "
- **Emoji:** " ++ emoji ++ "
- **Avatar:** *(set a workspace-relative path or URL)*"

/-- MEMORY.md content (lines 126-133). -/
def memoryContentOf (displayName today model id : String) : String :=
  "# MEMORY.md - Long-Term Memory

*" ++ displayName ++ "'s curated memories. Updated over time.*

## Born
- Created on " ++ today ++ " via Clawd Control
- Model: " ++ model ++ "
- Workspace: ~/clawd-agents/" ++ id

/-- TASKS.md content (lines 135-144). -/
def tasksContent : String :=
  "# TASKS.md

## Inbox
- [ ] Introduce yourself to Miguel
- [ ] Customize SOUL.md with your personality
- [ ] Explore your workspace and tools

## In Progress

## Done"

/-- TOOLS.md content (lines 146-154). -/
def toolsContentOf (hostname today : String) : String :=
  "# TOOLS.md - Local Notes

> Environment-specific details. Update as you discover things.

## Host
- **Machine:** " ++ hostname ++ "

---
*Updated: " ++ today ++ "*"

/-- HEARTBEAT.md content (lines 156-163). -/
def heartbeatContent : String :=
  "# HEARTBEAT.md

## Periodic Checks
- Review TASKS.md inbox — anything to triage?
- Check memory files — anything to update?

## Rule
Only HEARTBEAT_OK when genuinely nothing needs attention."

/-- BOOTSTRAP.md content (lines 165-176). -/
def bootstrapContentOf (displayName emoji today model : String) : String :=
  "# BOOTSTRAP.md - First Run

Welcome to existence, " ++ displayName ++ "! " ++ emoji ++ "

1. Read SOUL.md — customize it to be truly YOU
2. Read USER.md — this is Miguel, your human
3. Fill in IDENTITY.md with your details
4. Check TASKS.md — your first tasks are there
5. Delete this file when you're done

Created: " ++ today ++ " via Clawd Control
Model: " ++ model

/-- .gitignore content (lines 178-181). -/
def gitignoreContent : String :=
  ".credentials/
*.pid
*.log
node_modules/"

/-- `writeIfMissing` with write-failure injection.  The source's
`writeFileSync` (line 38) is uncaught and only runs when the file is
missing, so: file present — skip; file missing and the write would throw —
propagate; otherwise write. -/
def writeIfMissingE (failing : List String) (fs : FS) (path content : String) :
    Except String (FS × Bool) :=
  if !(existsF fs path) && failing.contains path then
    .error ("writeFileSync failed: " ++ path)
  else
    .ok (writeIfMissing fs path content)

/-- Copy a shared onboarding file from the default workspace when the source
exists and the destination does not (lines 184-191). -/
def copyShared (defaultWorkspace workspace file : String) (fs : FS) : FS :=
  let src := joinP defaultWorkspace file
  let dst := joinP workspace file
  if existsF fs src && !(existsF fs dst) then
    writeF fs dst ((readF fs src).getD "")
  else fs

/-- Step 2 of the workflow (lines 116-191): the eight `writeIfMissing`
documents, then the shared-file copies.  Any throwing write aborts with an
uncaught exception. -/
def scaffoldDocs (S : Settings) (failing : List String) (hostname today : String)
    (req : AgentRequest) (id displayName workspace : String) (fs : FS) :
    Except String FS :=
  (writeIfMissingE failing fs (joinP workspace "SOUL.md")
      (soulContentOf displayName req.soul)).bind fun r1 =>
  (writeIfMissingE failing r1.1 (joinP workspace "IDENTITY.md")
      (identityContentOf displayName req.soul req.emoji)).bind fun r2 =>
  (writeIfMissingE failing r2.1 (joinP workspace "MEMORY.md")
      (memoryContentOf displayName today req.model id)).bind fun r3 =>
  (writeIfMissingE failing r3.1 (joinP workspace "TASKS.md") tasksContent).bind fun r4 =>
  (writeIfMissingE failing r4.1 (joinP workspace "TOOLS.md")
      (toolsContentOf hostname today)).bind fun r5 =>
  (writeIfMissingE failing r5.1 (joinP workspace "HEARTBEAT.md") heartbeatContent).bind fun r6 =>
  (writeIfMissingE failing r6.1 (joinP workspace "BOOTSTRAP.md")
      (bootstrapContentOf displayName req.emoji today req.model)).bind fun r7 =>
  (writeIfMissingE failing r7.1 (joinP workspace ".gitignore") gitignoreContent).bind fun r8 =>
  .ok (copyShared S.defaultWorkspace workspace "USER.md"
        (copyShared S.defaultWorkspace workspace "AGENTS.md" r8.1))

/-- Step 5 of the workflow (lines 233-297): single read-modify-write of the
gateway configuration, with the sessions-directory `mkdirSync` inside the
same try-block.  Returns the updated world and the step lines this block
appends.  On any throw, only a warning line is appended and the file is left
unchanged. -/
def runConfigStep (S : Settings) (env : Env) (w : World)
    (telegramToken : Option String) (id : String) (telegramVerified : Bool) :
    World × List String :=
  match w.gatewayConfigFile with
  | none => (w, ["⚠️ Config update: " ++ env.configReadError.take 80])
  | some cfg =>
    match env.sessionsDirError with
    | some e => (w, ["⚠️ Config update: " ++ e.take 80])
    | none =>
      let w1 := { w with
        dirs := w.dirs ++ [joinP S.home (".clawdbot/agents/" ++ id ++ "/sessions")] }
      let cfg2 := applyConfigMutation id (telegramToken.getD "") telegramVerified cfg
      match env.configWriteError with
      | some e => (w1, ["⚠️ Config update: " ++ e.take 80])
      | none =>
        let w2 := { w1 with gatewayConfigFile := some cfg2 }
        (w2, ["✅ Cross-agent permissions configured"] ++
          (if telegramVerified then
            ["📱 Telegram bound as account \"" ++ id ++ "\""]
          else if telegramToken.isSome then
            ["⏭️ Telegram binding skipped (verification failed)"]
          else
            ["⏭️ Telegram skipped"]))

/-- Step 6 of the workflow (lines 300-322): dashboard registry update.
Appends an entry when none with this id exists, re-reading the gateway
config file for port and auth token.  Any throw degrades to a warning. -/
def runDashboardStep (env : Env) (w : World) (emoji : String)
    (id displayName workspace : String) : World × List String :=
  match w.dashboard with
  | none => (w, ["⚠️ Dashboard: " ++ env.dashboardReadError.take 80])
  | some entries =>
    if entries.any (fun a => a.id == id) then
      (w, ["✅ Dashboard updated"])
    else
      match w.gatewayConfigFile with
      | none => (w, ["⚠️ Dashboard: " ++ env.configReadError.take 80])
      | some cfg =>
        match env.dashboardWriteError with
        | some e => (w, ["⚠️ Dashboard: " ++ e.take 80])
        | none =>
          let entry : DashEntry :=
            { id := id, name := displayName, emoji := emoji, host := "127.0.0.1",
              port := (match cfg.gatewayPort with
                       | some p => if p = 0 then 18789 else p
                       | none => 18789),
              token := cfg.gatewayAuthToken.getD "",
              workspace := workspace, machine := env.hostname }
          ({ w with dashboard := some (entries ++ [entry]) },
            ["✅ Dashboard updated"])

/-- Step 7 of the workflow (lines 325-348): hot-reload step lines. -/
def reloadSteps (env : Env) : List String :=
  match env.reload with
  | .signaled => ["✅ Config reloaded (sessions preserved)"]
  | .fallbackEvent =>
      ["⚠️ Config reload signal sent — gateway will pick up changes on next cycle"]
  | .failed =>
      ["⚠️ Could not signal gateway — restart manually: clawdbot gateway restart"]

/-- The user-facing success message (lines 360-362). -/
def messageOf (displayName : String) (telegramToken : Option String) : String :=
  if telegramToken.isSome then
    displayName ++ " is live! Open Telegram and message the bot to start chatting."
  else
    displayName ++ " is live! Add a Telegram bot later to chat directly."

/-- Everything after the Telegram verification decision (lines 233-364):
config read-modify-write, dashboard update, hot reload, success result. -/
def createAgentTail (S : Settings) (env : Env) (w : World) (req : AgentRequest)
    (id displayName workspace : String) (steps : List String)
    (telegramVerified : Bool) : CreateResult × World :=
  let c := runConfigStep S env w req.telegramToken id telegramVerified
  let d := runDashboardStep env c.1 req.emoji id displayName workspace
  let allSteps := steps ++ c.2 ++ ["🏰 Adding to Clawd Control"] ++ d.2 ++
    ["🔄 Reloading gateway config"] ++ reloadSteps env ++
    ["🎉 " ++ displayName ++ " is ready!"]
  (.success id displayName req.emoji workspace req.model req.telegramToken.isSome
      (messageOf displayName req.telegramToken) allSteps, d.1)

/-- Whether the parsed gateway agent list contains the id (lines 56-62);
a failed or unparsable list command (`listOutput = none`) means no conflict. -/
def agentExistsIn (listOutput : Option (List String)) (id : String) : Bool :=
  match listOutput with
  | some ids => ids.contains id
  | none => false

/-- The whole workflow, source lines 44-364.  `listOutput` is the parsed
output of `clawdbot agents list --json` (`none` when the command failed or
its output was unparsable); `identityResult` is the outcome of the
`set-identity` call, which the source discards (`catch {}` at line 207) —
it is therefore never read below. -/
def createAgent (S : Settings) (listOutput : Option (List String))
    (_identityResult : Option String) (env : Env) (w : World)
    (req : AgentRequest) : Except String (CreateResult × World) :=
  let id := idOf req.name
  let displayName := displayNameOf req.name
  let workspace := joinP S.baseDir id
  if id = "" then
    .ok (.failure "Invalid name" ["❌ Name is invalid"], w)
  else if agentExistsIn listOutput id then
    .ok (.failure "Agent already exists"
      ["❌ Agent \"" ++ id ++ "\" already exists"], w)
  else
    let steps0 := ["📁 Creating workspace at ~/clawd-agents/" ++ id]
    match env.mkdirWorkspaceError with
    | some e => .ok (.failure ("Failed to create workspace: " ++ e) steps0, w)
    | none =>
      let w1 := { w with dirs := w.dirs ++
        [workspace, joinP workspace "memory", joinP workspace "skills",
         joinP workspace "scripts", joinP workspace ".credentials"] }
      let steps1 := steps0 ++ ["📝 Writing identity files"]
      match scaffoldDocs S env.failingWrites env.hostname env.today req id
          displayName workspace w1.files with
      | .error e => .error e
      | .ok fs =>
        let w2 := { w1 with files := fs }
        let steps2 := steps1 ++ ["🔗 Registering with gateway"] ++
          (match env.registerError with
           | none => ["✅ Agent registered"]
           | some e => ["⚠️ Registration warning: " ++ e.take 100]) ++
          [req.emoji ++ " Setting identity"] ++
          ["🔄 Configuring agent permissions"]
        match req.telegramToken with
        | some _ =>
          let steps3 := steps2 ++ ["📱 Verifying Telegram bot token"]
          match env.tgOutcome with
          | .invalid =>
            .ok (.failure "Invalid Telegram bot token"
              (steps3 ++ ["❌ Telegram token is invalid"]), w2)
          | .valid u =>
            .ok (createAgentTail S env w2 req id displayName workspace
              (steps3 ++ ["✅ Verified: @" ++ u]) true)
          | .unreachable m =>
            .ok (createAgentTail S env w2 req id displayName workspace
              (steps3 ++ ["⚠️ Telegram verification failed: " ++ m.take 80]) false)
        | none =>
          .ok (createAgentTail S env w2 req id displayName workspace steps2 false)

/-! ### Concrete fixtures used by witnesses and counterexamples -/

/-- Resolved paths for concrete runs. -/
def S0 : Settings :=
  { baseDir := "/home/u/clawd-agents", defaultWorkspace := "/home/u/clawd",
    home := "/home/u" }

/-- A gateway configuration holding only a `main` agent. -/
def cfg0 : GatewayConfig :=
  { agentsList := some [{ id := "main", subagents := none }],
    telegram := none, bindings := none, toolsAgentToAgentEnabled := none,
    gatewayPort := some 18789, gatewayAuthToken := some "secret" }

/-- An empty base directory, a readable config, an empty dashboard. -/
def w0 : World :=
  { files := [], dirs := [], gatewayConfigFile := some cfg0,
    dashboard := some [] }

/-- The spec's example request (no Telegram token). -/
def req0 : AgentRequest :=
  { name := "Nova", emoji := "🌟", soul := some "curious and sharp",
    model := "gpt-test", telegramToken := none }

/-- The same request with a Telegram token. -/
def reqT : AgentRequest := { req0 with telegramToken := some "123:abc" }

/-- An environment where every external call succeeds. -/
def env0 : Env :=
  { mkdirWorkspaceError := none, failingWrites := [], hostname := "box",
    today := "2026-10-11", registerError := none,
    tgOutcome := .valid "nova_bot", configReadError := "config read failed",
    sessionsDirError := none, configWriteError := none,
    dashboardReadError := "dashboard read failed", dashboardWriteError := none,
    reload := .signaled }

/-! ## List lemmas -/

theorem existsF_writeF (fs : FS) (p c : String) :
    existsF (writeF fs p c) p = true := by
  induction fs with
  | nil => simp [existsF, writeF, setEntry]
  | cons e es ih =>
    cases hbe : (e.1 == p) with
    | true => simp [existsF, writeF, setEntry, hbe]
    | false =>
      simp only [writeF, setEntry, hbe, Bool.false_eq_true, if_false]
      simp only [existsF, List.any_cons, hbe, Bool.false_or]
      simpa [existsF, writeF] using ih

theorem setEntry_lookup_self {β : Type} (k : String) (v : β)
    (l : List (String × β)) : lookupKey k (setEntry k v l) = some v := by
  induction l with
  | nil => simp [setEntry, lookupKey, List.find?]
  | cons e es ih =>
    cases hbe : (e.1 == k) with
    | true => simp [setEntry, lookupKey, List.find?, hbe]
    | false =>
      simp only [setEntry, hbe, Bool.false_eq_true, if_false]
      simp only [lookupKey]
      rw [List.find?_cons_of_neg _ (by simp [hbe])]
      simpa [lookupKey] using ih

theorem setEntry_countP {β : Type} (k : String) (v : β)
    (l : List (String × β)) (h : l.countP (fun e => e.1 == k) ≤ 1) :
    (setEntry k v l).countP (fun e => e.1 == k) = 1 := by
  induction l with
  | nil => simp [setEntry]
  | cons e es ih =>
    cases hbe : (e.1 == k) with
    | true =>
      simp only [setEntry, hbe, if_true, List.countP_cons, beq_self_eq_true]
      simp only [List.countP_cons, hbe, if_true] at h
      omega
    | false =>
      simp only [setEntry, hbe, Bool.false_eq_true, if_false]
      simp only [List.countP_cons, hbe, Bool.false_eq_true, if_false,
        Nat.add_zero] at h ⊢
      exact ih h

theorem find?_updateFirst_same {α : Type} (p : α → Bool) (f : α → α)
    (hf : ∀ a, p (f a) = p a) (l : List α) :
    (updateFirst p f l).find? p = (l.find? p).map f := by
  induction l with
  | nil => rfl
  | cons x xs ih =>
    by_cases h : p x = true
    · simp only [updateFirst]
      rw [if_pos h]
      rw [List.find?_cons_of_pos _ (by rw [hf]; exact h),
          List.find?_cons_of_pos _ h]
      rfl
    · simp only [updateFirst]
      rw [if_neg (by simp [h])]
      rw [List.find?_cons_of_neg _ (by simp [h]),
          List.find?_cons_of_neg _ (by simp [h])]
      exact ih

theorem find?_updateFirst_other {α : Type} (p q : α → Bool) (f : α → α)
    (hf : ∀ a, p (f a) = p a) (hpq : ∀ a, p a = true → q a = false)
    (l : List α) : (updateFirst q f l).find? p = l.find? p := by
  induction l with
  | nil => rfl
  | cons x xs ih =>
    by_cases hq : q x = true
    · have hpx : p x = false := by
        by_cases hp : p x = true
        · rw [hpq x hp] at hq; cases hq
        · simpa using hp
      simp only [updateFirst]
      rw [if_pos hq]
      rw [List.find?_cons_of_neg _ (by rw [hf]; simp [hpx]),
          List.find?_cons_of_neg _ (by simp [hpx])]
    · by_cases hp : p x = true
      · simp only [updateFirst]
        rw [if_neg (by simp [hq])]
        rw [List.find?_cons_of_pos _ hp, List.find?_cons_of_pos _ hp]
      · simp only [updateFirst]
        rw [if_neg (by simp [hq])]
        rw [List.find?_cons_of_neg _ (by simp [hp]),
            List.find?_cons_of_neg _ (by simp [hp])]
        exact ih

/-! ## Lemmas about the workflow steps -/

theorem writeIfMissingE_nofail (fs : FS) (p c : String) :
    writeIfMissingE [] fs p c = .ok (writeIfMissing fs p c) := by
  simp [writeIfMissingE]

theorem scaffoldDocs_nofail (S : Settings) (host today : String)
    (req : AgentRequest) (id dn ws : String) (fs : FS) :
    ∃ fs2, scaffoldDocs S [] host today req id dn ws fs = .ok fs2 := by
  simp only [scaffoldDocs, writeIfMissingE_nofail, Except.bind]
  exact ⟨_, rfl⟩

theorem runDashboardStep_config (env : Env) (w : World)
    (emoji id dn ws : String) :
    (runDashboardStep env w emoji id dn ws).1.gatewayConfigFile =
      w.gatewayConfigFile := by
  simp only [runDashboardStep]
  repeat' split
  all_goals rfl

theorem runConfigStep_write (S : Settings) (env : Env) (w : World)
    (tokenOpt : Option String) (id : String) (v : Bool) (cfg : GatewayConfig)
    (hcfg : w.gatewayConfigFile = some cfg)
    (hsd : env.sessionsDirError = none)
    (hcw : env.configWriteError = none) :
    (runConfigStep S env w tokenOpt id v).1.gatewayConfigFile =
      some (applyConfigMutation id (tokenOpt.getD "") v cfg) := by
  simp only [runConfigStep, hcfg, hsd, hcw]

theorem createAgentTail_world (S : Settings) (env : Env) (w : World)
    (req : AgentRequest) (id dn ws : String) (steps : List String) (v : Bool) :
    (createAgentTail S env w req id dn ws steps v).2 =
      (runDashboardStep env (runConfigStep S env w req.telegramToken id v).1
        req.emoji id dn ws).1 := rfl

theorem createAgentTail_ok (S : Settings) (env : Env) (w : World)
    (req : AgentRequest) (id dn ws : String) (steps : List String) (v : Bool) :
    (createAgentTail S env w req id dn ws steps v).1.ok = true := rfl

/-! ## Lemmas about the configuration mutation -/

theorem telegramAccounts_apply (id tok : String) (c : GatewayConfig) :
    telegramAccounts (applyConfigMutation id tok true c) =
      setEntry id (mkTelegramAccount tok) (telegramAccounts c) := rfl

theorem bindingsOf_apply (id tok : String) (c : GatewayConfig) :
    bindingsOf (applyConfigMutation id tok true c) =
      (if (bindingsOf c).any (bindingMatches id) then bindingsOf c
       else bindingsOf c ++ [newBinding id]) := rfl

theorem agentsList_apply (id tok : String) (v : Bool) (c : GatewayConfig) :
    (applyConfigMutation id tok v c).agentsList =
      (c.agentsList.map (updateFirst isMainEntry (mainUpdater id))).map
        (updateFirst (hasEntryId id) selfUpdater) := by
  cases v <;> rfl

theorem mainAllowAgents_apply (id tok : String) (v : Bool) (c : GatewayConfig)
    (al : List String) (hm : id ≠ "main") (h : mainAllowAgents c = some al) :
    mainAllowAgents (applyConfigMutation id tok v c) =
      some (if al.contains id then al else al ++ [id]) := by
  cases hl : c.agentsList with
  | none =>
    exfalso
    rw [mainAllowAgents, hl] at h
    simp at h
  | some l =>
    rw [mainAllowAgents, hl] at h
    simp only [Option.getD_some] at h
    rw [mainAllowAgents, agentsList_apply, hl]
    have step1 : (updateFirst (hasEntryId id) selfUpdater
        (updateFirst isMainEntry (mainUpdater id) l)).find? isMainEntry =
        (updateFirst isMainEntry (mainUpdater id) l).find? isMainEntry :=
      find?_updateFirst_other isMainEntry (hasEntryId id) selfUpdater
        (fun a => rfl)
        (fun a hp => by
          have ha : a.id = "main" := by simpa [isMainEntry] using hp
          simp only [hasEntryId, ha]
          exact beq_eq_false_iff_ne.mpr (Ne.symm hm))
        (updateFirst isMainEntry (mainUpdater id) l)
    have step2 : (updateFirst isMainEntry (mainUpdater id) l).find? isMainEntry =
        (l.find? isMainEntry).map (mainUpdater id) :=
      find?_updateFirst_same isMainEntry (mainUpdater id) (fun a => rfl) l
    simp only [Option.map_some', Option.getD_some, step1, step2]
    cases hfind : l.find? isMainEntry with
    | none =>
      rw [hfind] at h
      simp at h
    | some a0 =>
      rw [hfind] at h
      simp only [Option.map_some', Option.some.injEq] at h
      simp only [Option.map_some', Option.some.injEq]
      rw [← h]
      rfl

theorem toolsEnabled_apply (id tok : String) (v : Bool) (c : GatewayConfig) :
    (applyConfigMutation id tok v c).toolsAgentToAgentEnabled = some true := rfl

theorem bindings_countP_apply (id tok : String) (c : GatewayConfig)
    (h : (bindingsOf c).countP (bindingMatches id) ≤ 1) :
    (bindingsOf (applyConfigMutation id tok true c)).countP
      (bindingMatches id) = 1 := by
  rw [bindingsOf_apply]
  cases hany : (bindingsOf c).any (bindingMatches id) with
  | true =>
    rw [if_pos rfl]
    have hpos : 0 < (bindingsOf c).countP (bindingMatches id) := by
      rw [List.countP_pos_iff]
      obtain ⟨a, ha, hpa⟩ := List.any_eq_true.mp hany
      exact ⟨a, ha, hpa⟩
    omega
  | false =>
    rw [if_neg (by simp)]
    rw [List.countP_append]
    have h0 : (bindingsOf c).countP (bindingMatches id) = 0 := by
      rw [List.countP_eq_zero]
      intro a ha hpa
      have hcontra := List.any_eq_true.mpr ⟨a, ha, hpa⟩
      rw [hany] at hcontra
      cases hcontra
    rw [h0]
    simp [bindingMatches, newBinding]

/-! ## Claim theorems -/

/-- C9: for every input name, the AgentId equals the name lowercased with
all characters outside `[a-z0-9-]` removed, and the DisplayName equals the
name with its first character upper-cased and the rest unchanged: the
derivations of source lines 46-47 (`idOf`, `displayNameOf`) coincide with
the spec's description (`specAgentId`, `specDisplayName`). -/
theorem idOf_displayNameOf_spec (name : String) :
    idOf name = specAgentId name ∧ displayNameOf name = specDisplayName name := by
  constructor
  · rfl
  · obtain ⟨l⟩ := name
    cases l with
    | nil => rfl
    | cons c cs => rfl

/-- C4: the document writer never overwrites: on an existing path it leaves
the filesystem unchanged and returns `false`, and a second invocation on the
same path — with any other content — is always a no-op returning `false`. -/
theorem writeIfMissing_idempotent (fs : FS) (p c1 c2 : String) :
    (existsF fs p = true → writeIfMissing fs p c1 = (fs, false)) ∧
    writeIfMissing (writeIfMissing fs p c1).1 p c2 =
      ((writeIfMissing fs p c1).1, false) := by
  constructor
  · intro h
    simp [writeIfMissing, h]
  · by_cases h : existsF fs p = true
    · simp [writeIfMissing, h]
    · have h1 : writeIfMissing fs p c1 = (writeF fs p c1, true) := by
        simp only [writeIfMissing]
        rw [if_neg h]
      rw [h1]
      show writeIfMissing (writeF fs p c1) p c2 = (writeF fs p c1, false)
      simp only [writeIfMissing]
      rw [if_pos (existsF_writeF fs p c1)]

/-- C4 witness: on a concrete one-file filesystem both parts hold. -/
theorem writeIfMissing_idempotent_witness :
    (existsF [("a.md", "old")] "a.md" = true →
      writeIfMissing [("a.md", "old")] "a.md" "x" = ([("a.md", "old")], false)) ∧
    writeIfMissing (writeIfMissing [("a.md", "old")] "a.md" "x").1 "a.md" "y" =
      ((writeIfMissing [("a.md", "old")] "a.md" "x").1, false) :=
  writeIfMissing_idempotent [("a.md", "old")] "a.md" "x" "y"

/-- C6: when the channel token was verified, the mutated configuration's
`channels.telegram.accounts` entry keyed by the id is exactly
`{enabled: true, dmPolicy: "pairing", botToken: token,
groupPolicy: "allowlist", streamMode: "partial"}`, and every application of
the configuration mutation (the config step, verified or not) sets
`tools.agentToAgent.enabled` to `true`, never to `false`. -/
theorem applyConfigMutation_account_exact (id tok : String) (c : GatewayConfig) :
    lookupKey id (telegramAccounts (applyConfigMutation id tok true c)) =
      some { enabled := true, dmPolicy := "pairing", botToken := tok,
             groupPolicy := "allowlist", streamMode := "partial" } ∧
    ∀ v : Bool,
      (applyConfigMutation id tok v c).toolsAgentToAgentEnabled = some true := by
  constructor
  · rw [telegramAccounts_apply]
    exact setEntry_lookup_self id (mkTelegramAccount tok) (telegramAccounts c)
  · intro v
    exact toolsEnabled_apply id tok v c

/-- C2: the in-memory config mutation is idempotent.  Starting from a loaded
config whose `main` agent has allow-list `al` not yet containing the fresh id
(and whose accounts map and bindings list are well-formed: at most one entry
for the id), applying the mutation step twice with a verified token leaves
`main.subagents.allowAgents` containing the id exactly once, exactly one
channel-account entry keyed by the id, and exactly one binding matching
`{agentId: id, channel: "telegram", accountId: id}`. -/
theorem applyConfigMutation_twice (id tok : String) (c : GatewayConfig)
    (al : List String)
    (hmain : mainAllowAgents c = some al)
    (hfresh : al.contains id = false)
    (hid : id ≠ "main")
    (hacc : (telegramAccounts c).countP (fun e => e.1 == id) ≤ 1)
    (hbind : (bindingsOf c).countP (bindingMatches id) ≤ 1) :
    ((mainAllowAgents (applyConfigMutation id tok true
        (applyConfigMutation id tok true c))).getD []).count id = 1 ∧
    (telegramAccounts (applyConfigMutation id tok true
        (applyConfigMutation id tok true c))).countP (fun e => e.1 == id) = 1 ∧
    (bindingsOf (applyConfigMutation id tok true
        (applyConfigMutation id tok true c))).countP (bindingMatches id) = 1 := by
  have hnotmem : id ∉ al := by
    intro hmem
    have := List.elem_eq_true_of_mem hmem
    rw [show al.elem id = al.contains id from rfl, hfresh] at this
    cases this
  refine ⟨?_, ?_, ?_⟩
  · have m1 := mainAllowAgents_apply id tok true c al hid hmain
    simp only [hfresh, Bool.false_eq_true, if_false] at m1
    have hc : (al ++ [id]).contains id = true := by
      have hmem : id ∈ al ++ [id] :=
        List.mem_append_right _ (List.mem_singleton_self id)
      exact List.elem_eq_true_of_mem hmem
    have m2 := mainAllowAgents_apply id tok true
      (applyConfigMutation id tok true c) (al ++ [id]) hid m1
    simp only [hc, if_true] at m2
    rw [m2, Option.getD_some, List.count_append]
    have h0 : al.count id = 0 := List.count_eq_zero.mpr hnotmem
    rw [h0]
    simp
  · have a1 : (telegramAccounts (applyConfigMutation id tok true c)).countP
        (fun e => e.1 == id) = 1 := by
      rw [telegramAccounts_apply]
      exact setEntry_countP id (mkTelegramAccount tok) (telegramAccounts c) hacc
    rw [telegramAccounts_apply]
    exact setEntry_countP id (mkTelegramAccount tok) _ (Nat.le_of_eq a1)
  · have b1 := bindings_countP_apply id tok c hbind
    exact bindings_countP_apply id tok
      (applyConfigMutation id tok true c) (Nat.le_of_eq b1)

/-- C3: when the name normalizes to the empty string, `createAgent` returns
the failure result with the single step line `❌ Name is invalid` and the
world is returned untouched; the result does not depend on any external-call
outcome (the statement is universally quantified over the whole oracle), so
no filesystem write, directory creation, gateway call, network call, config
or registry mutation occurs. -/
theorem createAgent_emptyId (S : Settings) (lo : Option (List String))
    (ir : Option String) (env : Env) (w : World) (req : AgentRequest)
    (h : idOf req.name = "") :
    createAgent S lo ir env w req =
      .ok (.failure "Invalid name" ["❌ Name is invalid"], w) := by
  simp only [createAgent]
  rw [if_pos h]

/-- C3 witness: a concrete all-symbol name normalizes to the empty string. -/
theorem createAgent_emptyId_witness :
    createAgent S0 (some ["nova"]) (some "ignored") env0 w0
      ⟨"!!!", "🤖", none, "m", some "tok"⟩ =
      .ok (.failure "Invalid name" ["❌ Name is invalid"], w0) :=
  createAgent_emptyId S0 (some ["nova"]) (some "ignored") env0 w0
    ⟨"!!!", "🤖", none, "m", some "tok"⟩ (by decide)

/-- C5: if the gateway's agent list parses and contains the normalized id,
`createAgent` fails with `Agent already exists` and the world is unchanged
(no directory, file, config or registry mutation); if the id is absent the
run is identical to a run whose list query failed (`listOutput = none`),
i.e. a failed or unparsable query is treated as "no conflicting agent". -/
theorem createAgent_existenceGuard (S : Settings) (ir : Option String)
    (env : Env) (w : World) (req : AgentRequest) (l : List String)
    (h : idOf req.name ≠ "") :
    (l.contains (idOf req.name) = true →
      createAgent S (some l) ir env w req =
        .ok (.failure "Agent already exists"
          ["❌ Agent \"" ++ idOf req.name ++ "\" already exists"], w)) ∧
    (l.contains (idOf req.name) = false →
      createAgent S (some l) ir env w req =
        createAgent S none ir env w req) := by
  constructor
  · intro hc
    simp only [createAgent]
    rw [if_neg h]
    rw [if_pos (show agentExistsIn (some l) (idOf req.name) = true from hc)]
  · intro hc
    simp only [createAgent]
    rw [if_neg h, if_neg h]
    have h1 : agentExistsIn (some l) (idOf req.name) = false := hc
    have h2 : agentExistsIn none (idOf req.name) = false := rfl
    rw [h1, h2]

/-- C5 witness: with id `nova` present the guard fires; with it absent the
run equals the run whose list query failed. -/
theorem createAgent_existenceGuard_witness :
    createAgent S0 (some ["nova"]) none env0 w0 req0 =
      .ok (.failure "Agent already exists"
        ["❌ Agent \"" ++ idOf req0.name ++ "\" already exists"], w0) ∧
    createAgent S0 (some ["other"]) none env0 w0 req0 =
      createAgent S0 none none env0 w0 req0 :=
  ⟨(createAgent_existenceGuard S0 none env0 w0 req0 ["nova"] (by decide)).1
      (by decide),
   (createAgent_existenceGuard S0 none env0 w0 req0 ["other"] (by decide)).2
      (by decide)⟩

/-- C1: when a channel token is supplied and the provider's identity check
parses with `ok: false`, `createAgent` returns the failure result with error
`Invalid Telegram bot token`, the gateway configuration file and the
dashboard registry are exactly as before the run (no channel-account and no
binding entry added), yet the workspace directory created earlier in the run
is present on disk. -/
theorem createAgent_invalidToken (S : Settings) (lo : Option (List String))
    (ir : Option String) (w : World) (name emoji : String)
    (soul : Option String) (model tok host today : String)
    (regE : Option String) (crm : String) (sdE cwE : Option String)
    (drm : String) (dwE : Option String) (rel : ReloadOutcome)
    (h1 : idOf name ≠ "")
    (h2 : agentExistsIn lo (idOf name) = false) :
    ∃ st w2,
      createAgent S lo ir
        ⟨none, [], host, today, regE, .invalid, crm, sdE, cwE, drm, dwE, rel⟩
        w ⟨name, emoji, soul, model, some tok⟩ =
        .ok (.failure "Invalid Telegram bot token" st, w2) ∧
      w2.gatewayConfigFile = w.gatewayConfigFile ∧
      w2.dashboard = w.dashboard ∧
      joinP S.baseDir (idOf name) ∈ w2.dirs := by
  simp only [createAgent]
  rw [if_neg h1]
  rw [h2, if_neg (by simp)]
  obtain ⟨fs2, hfs⟩ := scaffoldDocs_nofail S host today
    ⟨name, emoji, soul, model, some tok⟩ (idOf name) (displayNameOf name)
    (joinP S.baseDir (idOf name)) w.files
  rw [hfs]
  refine ⟨_, _, rfl, rfl, rfl, ?_⟩
  exact List.mem_append_right _ (List.mem_cons_self _ _)

/-- C1 witness: concrete run with a provider-rejected token. -/
theorem createAgent_invalidToken_witness :
    ∃ st w2,
      createAgent S0 (some []) none
        ⟨none, [], "box", "2026-10-11", none, .invalid, "cr", none, none,
          "dr", none, .signaled⟩
        w0 ⟨"Nova", "🌟", some "curious and sharp", "gpt-test", some "badtok"⟩ =
        .ok (.failure "Invalid Telegram bot token" st, w2) ∧
      w2.gatewayConfigFile = w0.gatewayConfigFile ∧
      w2.dashboard = w0.dashboard ∧
      joinP S0.baseDir (idOf "Nova") ∈ w2.dirs :=
  createAgent_invalidToken S0 (some []) none w0 "Nova" "🌟"
    (some "curious and sharp") "gpt-test" "badtok" "box" "2026-10-11" none
    "cr" none none "dr" none .signaled (by decide) (by decide)

/-- C10: when a token is supplied but the verification call degrades (throws
or returns unparsable output), the run still succeeds and the returned
result has `hasTelegram = true` and the Telegram-enabled success message,
even though the configuration written back gains no channel-account entry
and no binding (the mutation runs with `telegramVerified = false`): the
`hasTelegram` flag reflects token presence, not binding success. -/
theorem createAgent_unreachableVerify (S : Settings) (lo : Option (List String))
    (ir : Option String) (w : World) (cfg : GatewayConfig)
    (name emoji : String) (soul : Option String)
    (model tok host today msg : String) (regE : Option String)
    (crm drm : String) (dwE : Option String) (rel : ReloadOutcome)
    (h1 : idOf name ≠ "")
    (h2 : agentExistsIn lo (idOf name) = false)
    (hcfg : w.gatewayConfigFile = some cfg) :
    ∃ r w2,
      createAgent S lo ir
        ⟨none, [], host, today, regE, .unreachable msg, crm, none, none,
          drm, dwE, rel⟩
        w ⟨name, emoji, soul, model, some tok⟩ = .ok (r, w2) ∧
      r.ok = true ∧
      r.hasTelegram = some true ∧
      r.message = some (displayNameOf name ++
        " is live! Open Telegram and message the bot to start chatting.") ∧
      w2.gatewayConfigFile =
        some (applyConfigMutation (idOf name) tok false cfg) ∧
      telegramAccounts (applyConfigMutation (idOf name) tok false cfg) =
        telegramAccounts cfg ∧
      bindingsOf (applyConfigMutation (idOf name) tok false cfg) =
        bindingsOf cfg := by
  simp only [createAgent]
  rw [if_neg h1, h2, if_neg (by simp)]
  obtain ⟨fs2, hfs⟩ := scaffoldDocs_nofail S host today
    ⟨name, emoji, soul, model, some tok⟩ (idOf name) (displayNameOf name)
    (joinP S.baseDir (idOf name)) w.files
  rw [hfs]
  refine ⟨_, _, rfl, rfl, rfl, rfl, ?_, rfl, rfl⟩
  rw [runDashboardStep_config]
  exact runConfigStep_write _ _ _ _ _ _ cfg hcfg rfl rfl

/-- C10 witness: concrete degraded-verification run on `w0`. -/
theorem createAgent_unreachableVerify_witness :
    ∃ r w2,
      createAgent S0 (some []) none
        ⟨none, [], "box", "2026-10-11", none, .unreachable "ETIMEDOUT", "cr",
          none, none, "dr", none, .signaled⟩
        w0 ⟨"Nova", "🌟", some "curious and sharp", "gpt-test",
          some "123:abc"⟩ = .ok (r, w2) ∧
      r.ok = true ∧
      r.hasTelegram = some true ∧
      r.message = some (displayNameOf "Nova" ++
        " is live! Open Telegram and message the bot to start chatting.") ∧
      w2.gatewayConfigFile =
        some (applyConfigMutation (idOf "Nova") "123:abc" false cfg0) ∧
      telegramAccounts (applyConfigMutation (idOf "Nova") "123:abc" false cfg0) =
        telegramAccounts cfg0 ∧
      bindingsOf (applyConfigMutation (idOf "Nova") "123:abc" false cfg0) =
        bindingsOf cfg0 :=
  createAgent_unreachableVerify S0 (some []) none w0 cfg0 "Nova" "🌟"
    (some "curious and sharp") "gpt-test" "123:abc" "box" "2026-10-11"
    "ETIMEDOUT" none "cr" "dr" none .signaled (by decide) (by decide) rfl

/-- C7 counterexample to the claim as stated: in a run whose only failing
external call is the set-identity call, `createAgent` succeeds but appends
no warning line at all — the step log contains zero warning lines and is
identical to the log of the run where set-identity succeeded, because the
source discards that call's outcome (`catch {}`). -/
theorem createAgent_identityFailure_noWarning :
    runOk (createAgent S0 (some []) (some "identity-set call failed")
      env0 w0 req0) = true ∧
    (runSteps (createAgent S0 (some []) (some "identity-set call failed")
      env0 w0 req0)).countP isWarning = 0 ∧
    createAgent S0 (some []) (some "identity-set call failed") env0 w0 req0 =
      createAgent S0 (some []) none env0 w0 req0 :=
  ⟨by decide, by decide, rfl⟩

/-- C7 amended: for every run that passes name validation, the existence
guard, workspace creation and the invalid-token check, failures of any of
the later external calls (registration, set-identity, degraded verification,
config read/write, sessions directory, dashboard read/write, hot reload)
leave the outcome a success: `createAgent` returns `ok = true` for all such
oracle outcomes; at most a warning line is logged, and set-identity failure
logs nothing. -/
theorem createAgent_laterFailures_ok (S : Settings) (lo : Option (List String))
    (ir : Option String) (w : World) (req : AgentRequest)
    (host today : String) (regE : Option String) (tg : TgOutcome)
    (crm : String) (sdE cwE : Option String) (drm : String)
    (dwE : Option String) (rel : ReloadOutcome)
    (h1 : idOf req.name ≠ "")
    (h2 : agentExistsIn lo (idOf req.name) = false)
    (h3 : req.telegramToken = none ∨ tg ≠ TgOutcome.invalid) :
    ∃ r w2,
      createAgent S lo ir
        ⟨none, [], host, today, regE, tg, crm, sdE, cwE, drm, dwE, rel⟩
        w req = .ok (r, w2) ∧ r.ok = true := by
  simp only [createAgent]
  rw [if_neg h1, h2, if_neg (by simp)]
  obtain ⟨fs2, hfs⟩ := scaffoldDocs_nofail S host today req (idOf req.name)
    (displayNameOf req.name) (joinP S.baseDir (idOf req.name)) w.files
  rw [hfs]
  cases htok : req.telegramToken with
  | none => exact ⟨_, _, rfl, rfl⟩
  | some t =>
    cases tg with
    | invalid =>
      rcases h3 with h3 | h3
      · rw [htok] at h3; cases h3
      · exact absurd rfl h3
    | valid u => exact ⟨_, _, rfl, rfl⟩
    | unreachable m => exact ⟨_, _, rfl, rfl⟩

/-- C7 amended witness: a run where registration, config read, session
directory, config write, dashboard read/write and hot reload all fail still
returns `ok = true`. -/
theorem createAgent_laterFailures_ok_witness :
    ∃ r w2,
      createAgent S0 (some []) none
        ⟨none, [], "box", "2026-10-11", some "gateway down", .invalid,
          "cfg read fail", some "sessions fail", some "cfg write fail",
          "dash read fail", some "dash write fail", .failed⟩
        ⟨[], [], none, none⟩ req0 = .ok (r, w2) ∧ r.ok = true :=
  createAgent_laterFailures_ok S0 (some []) none ⟨[], [], none, none⟩ req0
    "box" "2026-10-11" (some "gateway down") .invalid "cfg read fail"
    (some "sessions fail") (some "cfg write fail") "dash read fail"
    (some "dash write fail") .failed (by decide) (by decide) (Or.inl rfl)

/-- C8 counterexample to the claim as stated: a failing individual document
write does not yield a failure result at all — the run ends in an uncaught
exception (the `writeIfMissing` calls of lines 116-181 sit outside the
try-block of lines 66-73, which covers only directory creation). -/
theorem createAgent_docWriteThrows :
    isThrown (createAgent S0 (some []) none
      { env0 with failingWrites :=
          [joinP (joinP S0.baseDir "nova") "SOUL.md"] }
      w0 req0) = true := by decide

/-- C8 amended: both scaffolding failures are fatal (neither degrades to a
warning), but at different granularities: a failure creating the base
directory tree is caught and returned as a failure result surfacing the
underlying error, while a failure writing an individual template document
is uncaught and propagates as a thrown exception — the two do not share a
failure boundary. -/
theorem createAgent_scaffoldBoundaries (S : Settings)
    (lo : Option (List String)) (ir : Option String) (w : World)
    (req : AgentRequest) (e host today : String) (regE : Option String)
    (tg : TgOutcome) (crm : String) (sdE cwE : Option String) (drm : String)
    (dwE : Option String) (rel : ReloadOutcome)
    (h1 : idOf req.name ≠ "")
    (h2 : agentExistsIn lo (idOf req.name) = false)
    (h3 : existsF w.files
      (joinP (joinP S.baseDir (idOf req.name)) "SOUL.md") = false) :
    createAgent S lo ir
      ⟨some e, [], host, today, regE, tg, crm, sdE, cwE, drm, dwE, rel⟩
      w req =
      .ok (.failure ("Failed to create workspace: " ++ e)
        ["📁 Creating workspace at ~/clawd-agents/" ++ idOf req.name], w) ∧
    createAgent S lo ir
      ⟨none, [joinP (joinP S.baseDir (idOf req.name)) "SOUL.md"], host,
        today, regE, tg, crm, sdE, cwE, drm, dwE, rel⟩
      w req =
      .error ("writeFileSync failed: " ++
        joinP (joinP S.baseDir (idOf req.name)) "SOUL.md") := by
  constructor
  · simp only [createAgent]
    rw [if_neg h1, h2, if_neg (by simp)]
  · simp only [createAgent]
    rw [if_neg h1, h2, if_neg (by simp)]
    simp only [scaffoldDocs, writeIfMissingE, h3]
    simp [Except.bind]

/-- C8 amended witness: concrete runs exhibiting both boundaries. -/
theorem createAgent_scaffoldBoundaries_witness :
    createAgent S0 (some []) none
      ⟨some "EACCES: permission denied", [], "box", "2026-10-11", none,
        .valid "nova_bot", "cr", none, none, "dr", none, .signaled⟩
      w0 req0 =
      .ok (.failure ("Failed to create workspace: " ++
          "EACCES: permission denied")
        ["📁 Creating workspace at ~/clawd-agents/" ++ idOf req0.name], w0) ∧
    createAgent S0 (some []) none
      ⟨none, [joinP (joinP S0.baseDir (idOf req0.name)) "SOUL.md"], "box",
        "2026-10-11", none, .valid "nova_bot", "cr", none, none, "dr", none,
        .signaled⟩
      w0 req0 =
      .error ("writeFileSync failed: " ++
        joinP (joinP S0.baseDir (idOf req0.name)) "SOUL.md") :=
  createAgent_scaffoldBoundaries S0 (some []) none w0 req0
    "EACCES: permission denied" "box" "2026-10-11" none (.valid "nova_bot")
    "cr" none none "dr" none .signaled (by decide) (by decide) (by decide)

/-- C2 witness: concrete double application on `cfg0` with id `nova`. -/
theorem applyConfigMutation_twice_witness :
    ((mainAllowAgents (applyConfigMutation "nova" "123:abc" true
        (applyConfigMutation "nova" "123:abc" true cfg0))).getD []).count "nova" = 1 ∧
    (telegramAccounts (applyConfigMutation "nova" "123:abc" true
        (applyConfigMutation "nova" "123:abc" true cfg0))).countP
      (fun e => e.1 == "nova") = 1 ∧
    (bindingsOf (applyConfigMutation "nova" "123:abc" true
        (applyConfigMutation "nova" "123:abc" true cfg0))).countP
      (bindingMatches "nova") = 1 :=
  applyConfigMutation_twice "nova" "123:abc" cfg0 []
    (by decide) (by decide) (by decide) (by decide) (by decide)

end ClawdControl
